import Mathlib

/-!
Shallow embedding of the chat widget client (src/client/src/App.tsx) and of
the express send endpoint (the unnamed server file), used to check the
specification claims about session lifecycle, the conversation log, the
typing signal, and the send path.

State updates in the React component are modelled as pure functions on an
explicit record of the useState cells plus the wsRef mutable reference.
Two instrumentation counters (bootstrapCalls, channelsCreated) record the
outward effects a state transition performs: how many bootstrap fetches
were issued and how many WebSocket objects were constructed. A live
channel is identified by the index at which it was created, so a change of
wsRef value means a different connection object.
-/

namespace Chat

/-- Sender tag of a log entry, from the client Message interface
("user" or "bot"). -/
inductive Sender
  | user
  | bot
deriving DecidableEq

/-- One entry of the conversation log: the client Message interface.
The optional isLoading flag is read as false when absent, matching how
the code tests it with truthiness. -/
structure Message where
  content : String
  sender : Sender
  timestamp : Nat
  isLoading : Bool
deriving DecidableEq

/-- JavaScript falsiness of a possibly absent string, as tested by the
bang operator in the source: true for undefined or null and for the
empty string. -/
def jsFalsy : Option String → Bool
  | none => true
  | some str => decide (str = "")

/-- Whitespace trimming as performed by the JavaScript trim method on a
string, written over the character list so that it evaluates. -/
def jsTrim (s : String) : String :=
  String.mk (((s.toList.dropWhile Char.isWhitespace).reverse.dropWhile
    Char.isWhitespace).reverse)

/-- The client state: every useState cell of the App component plus the
wsRef reference, together with two counters observing outward effects
(bootstrap fetches issued, WebSocket constructions performed). -/
structure ClientState where
  messages : List Message
  input : String
  isTyping : Bool
  isChatLoading : Bool
  isWidgetOpen : Bool
  hasNewMessage : Bool
  hasPendingBotResponse : Bool
  contactId : Option String
  participantToken : Option String
  connectionToken : Option String
  wsUrl : Option String
  wsRef : Option Nat
  bootstrapCalls : Nat
  channelsCreated : Nat
deriving DecidableEq

/-- The initial state of the component: empty log, everything unset,
widget closed. -/
def initialState : ClientState :=
  { messages := []
    input := ""
    isTyping := false
    isChatLoading := false
    isWidgetOpen := false
    hasNewMessage := false
    hasPendingBotResponse := false
    contactId := none
    participantToken := none
    connectionToken := none
    wsUrl := none
    wsRef := none
    bootstrapCalls := 0
    channelsCreated := 0 }

/-- Shape of the JSON body returned by the start-chat endpoint, as
destructured by the client; each field may be absent. -/
structure BootstrapResponse where
  contactId : Option String
  participantToken : Option String
  websocketUrl : Option String
  connectionToken : Option String
deriving DecidableEq

/-- Embedding of the client function initializeChat. The argument is the
outcome of the bootstrap fetch: none models a transport failure of the
fetch itself, some resp a parsed JSON body. The fetch is always issued
(bootstrapCalls grows); a missing contactId, participantToken or
websocketUrl raises, landing in the catch block that only resets the
loading flag. On success the four session cells are written, a new
WebSocket is constructed (fresh channel index) and, at onopen, the
subscription frame is sent and the loading flag cleared. -/
def initChat (resp : Option BootstrapResponse) (s : ClientState) : ClientState :=
  let s1 : ClientState := { s with isChatLoading := true, bootstrapCalls := s.bootstrapCalls + 1 }
  match resp with
  | none => { s1 with isChatLoading := false }
  | some data =>
    if jsFalsy data.contactId || jsFalsy data.participantToken || jsFalsy data.websocketUrl then
      { s1 with isChatLoading := false }
    else
      { s1 with
          contactId := data.contactId
          participantToken := data.participantToken
          wsUrl := data.websocketUrl
          connectionToken := data.connectionToken
          wsRef := some s1.channelsCreated
          channelsCreated := s1.channelsCreated + 1
          isChatLoading := false }

/-- Parsed inner envelope of an aws/chat frame, fields named after the
JSON keys the client reads. -/
structure ChatInner where
  msgType : String
  participantRole : String
  msgContent : String
  absoluteTime : Nat
deriving DecidableEq

/-- Parsed inner envelope of an aws/typing frame. -/
structure TypingInner where
  msgType : String
  state : String
  participantRole : String
deriving DecidableEq

/-- A successfully parsed WebSocket frame, classified by topic; frames on
any other topic carry no data the handler reads. -/
inductive WsFrame
  | chatFrame (c : ChatInner)
  | typingFrame (t : TypingInner)
  | otherFrame
deriving DecidableEq

/-- The map applied to every log entry when a remote chat message arrives:
an entry that is loading and was sent by the local user has its loading
flag cleared, every other entry is untouched. -/
def clearPendingUser (m : Message) : Message :=
  if m.isLoading ∧ m.sender = Sender.user then { m with isLoading := false } else m

/-- Embedding of the ws.onmessage handler. A chat frame of inner type
MESSAGE from a participant other than CUSTOMER clears the loading flag on
every pending local message, appends the remote message, clears the
pending-bot-response flag and, if the widget is hidden, raises the
new-message badge; a chat frame whose participant is CUSTOMER is dropped.
A typing frame of inner type TYPING overwrites the typing signal with
(state = STARTED and role is not CUSTOMER). Everything else is ignored. -/
def onMessage (f : WsFrame) (s : ClientState) : ClientState :=
  match f with
  | WsFrame.chatFrame c =>
    if c.msgType = "MESSAGE" then
      let isCustomerMessage := c.participantRole = "CUSTOMER"
      let newMessage : Message :=
        { content := c.msgContent
          sender := if isCustomerMessage then Sender.user else Sender.bot
          timestamp := c.absoluteTime
          isLoading := false }
      if isCustomerMessage then s
      else
        { s with
            messages := s.messages.map clearPendingUser ++ [newMessage]
            hasPendingBotResponse := false
            hasNewMessage := if s.isWidgetOpen then s.hasNewMessage else true }
    else s
  | WsFrame.typingFrame t =>
    if t.msgType = "TYPING" then
      { s with isTyping := decide (t.state = "STARTED" ∧ t.participantRole ≠ "CUSTOMER") }
    else s
  | WsFrame.otherFrame => s

/-- Outcome of the outward send fetch as seen by the client: a resolved
response (any HTTP status — fetch does not reject on non-2xx, and the
client never reads the response) or a rejected promise (transport
failure, landing in the catch block which only logs). -/
inductive SendOutcome
  | resolved (status : Nat)
  | transportFailure
deriving DecidableEq

/-- Embedding of handleSubmit. If the trimmed input is empty or any of
contactId, participantToken, wsUrl is falsy, nothing happens. Otherwise
the optimistic local message (loading flag set) is appended, the input
cleared, the pending-bot-response flag raised, and the outward call is
issued; its outcome changes no client state, because the code neither
reads the response nor does anything in the catch block but log. -/
def handleSubmit (now : Nat) (outcome : SendOutcome) (s : ClientState) : ClientState :=
  if jsFalsy (some (jsTrim s.input)) || jsFalsy s.contactId || jsFalsy s.participantToken
      || jsFalsy s.wsUrl then s
  else
    let userMessage : Message :=
      { content := s.input, sender := Sender.user, timestamp := now, isLoading := true }
    let _ := outcome
    { s with
        messages := s.messages ++ [userMessage]
        input := ""
        hasPendingBotResponse := true }

/-- Embedding of handleEndChat: closes and drops the channel reference,
empties the log and input, clears the typing and pending flags, nulls
contactId and participantToken. connectionToken and wsUrl are not
written by this handler. -/
def handleEndChat (s : ClientState) : ClientState :=
  { s with
      wsRef := none
      messages := []
      input := ""
      isTyping := false
      hasPendingBotResponse := false
      contactId := none
      participantToken := none }

/-- Embedding of handleClearMessages: empties the log and nothing else. -/
def handleClearMessages (s : ClientState) : ClientState :=
  { s with messages := [] }

/-- Embedding of minimizing the widget: setIsWidgetOpen(false) followed by
the effect on isWidgetOpen, whose closed branch clears the typing signal,
the input and the pending flag while keeping the log and the channel. -/
def handleMinimizeChat (s : ClientState) : ClientState :=
  { s with
      isWidgetOpen := false
      isTyping := false
      input := ""
      hasPendingBotResponse := false }

/-- Embedding of opening (or reopening) the widget: setIsWidgetOpen(true)
followed by the effect on isWidgetOpen, whose open branch calls
initializeChat unconditionally. -/
def openWidget (resp : Option BootstrapResponse) (s : ClientState) : ClientState :=
  initChat resp { s with isWidgetOpen := true }

/-- A user-interface operation on the widget visibility. -/
inductive UiOp
  | minimizeOp
  | reopenOp (resp : Option BootstrapResponse)

/-- Runs a sequence of visibility operations left to right. -/
def runOps (ops : List UiOp) (s : ClientState) : ClientState :=
  match ops with
  | [] => s
  | UiOp.minimizeOp :: rest => runOps rest (handleMinimizeChat s)
  | UiOp.reopenOp resp :: rest => runOps rest (openWidget resp s)

/-- Body of a request to the send endpoint, as destructured by the
server; each field may be absent. -/
structure SendRequest where
  connectionToken : Option String
  content : Option String
deriving DecidableEq

/-- Observable outcome of the send endpoint: HTTP status, the error kind
of the JSON body when there is one, and whether the outward AWS
SendMessage transport was invoked. -/
structure SendEndpointResult where
  status : Nat
  errorKind : Option String
  outwardCalled : Bool
deriving DecidableEq

/-- Result of the outward AWS SendMessage call, when it is made. -/
inductive TransportResult
  | ok (messageId : String) (absoluteTime : Nat)
  | err
deriving DecidableEq

/-- Embedding of the send-message endpoint of the server. A falsy
connectionToken or content is answered 400 MissingParameters before any
client construction or outward call; otherwise the outward call is made
and its success or failure mapped to 200 or 500 MessageSendError. -/
def sendMessageEndpoint (transport : TransportResult) (req : SendRequest) :
    SendEndpointResult :=
  if jsFalsy req.connectionToken || jsFalsy req.content then
    { status := 400, errorKind := some "MissingParameters", outwardCalled := false }
  else
    match transport with
    | TransportResult.ok _ _ => { status := 200, errorKind := none, outwardCalled := true }
    | TransportResult.err =>
      { status := 500, errorKind := some "MessageSendError", outwardCalled := true }

/-- The body the client posts to the send endpoint from handleSubmit:
the current connectionToken cell and the message content. -/
def clientSendRequest (s : ClientState) : SendRequest :=
  { connectionToken := s.connectionToken, content := some s.input }

/-- A bootstrap response carrying all four fields, used as concrete input
in several closed statements. -/
def goodResp : BootstrapResponse :=
  { contactId := some "c1"
    participantToken := some "p1"
    websocketUrl := some "wss://x"
    connectionToken := some "k1" }

/-- C1 counterexample: from the initial state, open the widget with a
fully populated bootstrap response, then run end(). In the resulting
state contactId and participantToken are absent while connectionToken
and the push-channel address still hold the bootstrapped values, so the
four Session fields are neither all set nor all absent after end(). -/
theorem C1_counterexample :
    (handleEndChat (openWidget (some goodResp) initialState)).contactId = none ∧
    (handleEndChat (openWidget (some goodResp) initialState)).participantToken = none ∧
    (handleEndChat (openWidget (some goodResp) initialState)).connectionToken = some "k1" ∧
    (handleEndChat (openWidget (some goodResp) initialState)).wsUrl = some "wss://x" := by
  decide

/-- C1 amended: end() clears contactId and participantToken, drops the
channel reference and empties the log, but leaves connectionToken and the
push-channel address exactly as they were, so after an end() that follows
a successful bootstrap the Session fields are only partially absent. -/
theorem C1_end_partial_clear (s : ClientState) :
    (handleEndChat s).contactId = none ∧
    (handleEndChat s).participantToken = none ∧
    (handleEndChat s).wsRef = none ∧
    (handleEndChat s).messages = [] ∧
    (handleEndChat s).isTyping = false ∧
    (handleEndChat s).connectionToken = s.connectionToken ∧
    (handleEndChat s).wsUrl = s.wsUrl := by
  simp [handleEndChat]

/-- C2: concrete run refuting the no-re-bootstrap claim. Opening the
widget bootstraps once and stores channel 0; minimize followed by reopen
issues a second bootstrap fetch and constructs a second channel, replacing
the stored reference, while the conversation log is unchanged. -/
theorem C2_reopen_rebootstraps :
    (openWidget (some goodResp) initialState).bootstrapCalls = 1 ∧
    (openWidget (some goodResp) initialState).wsRef = some 0 ∧
    (runOps [UiOp.minimizeOp, UiOp.reopenOp (some goodResp)]
        (openWidget (some goodResp) initialState)).bootstrapCalls = 2 ∧
    (runOps [UiOp.minimizeOp, UiOp.reopenOp (some goodResp)]
        (openWidget (some goodResp) initialState)).wsRef = some 1 ∧
    (runOps [UiOp.minimizeOp, UiOp.reopenOp (some goodResp)]
        (openWidget (some goodResp) initialState)).channelsCreated = 2 ∧
    (runOps [UiOp.minimizeOp, UiOp.reopenOp (some goodResp)]
        (openWidget (some goodResp) initialState)).messages =
      (openWidget (some goodResp) initialState).messages := by
  decide

/-- C3 counterexample: after a remote typing STARTED the typing signal is
true, and it is still true after a remote chat MESSAGE is delivered — the
delivery does not clear the typing signal. -/
theorem C3_counterexample :
    (onMessage (WsFrame.typingFrame { msgType := "TYPING", state := "STARTED", participantRole := "AGENT" })
        (openWidget (some goodResp) initialState)).isTyping = true ∧
    (onMessage (WsFrame.chatFrame { msgType := "MESSAGE", participantRole := "AGENT", msgContent := "hi", absoluteTime := 5 })
        (onMessage (WsFrame.typingFrame { msgType := "TYPING", state := "STARTED", participantRole := "AGENT" })
          (openWidget (some goodResp) initialState))).isTyping = true := by
  decide

/-- C3 amended: delivering a chat message from a non-local participant
clears the pending-bot-response flag but leaves the typing signal exactly
as it was; the typing signal is written only by typing-topic events. -/
theorem C3_delivery_keeps_typing (c : ChatInner) (s : ClientState)
    (hty : c.msgType = "MESSAGE") (hrole : c.participantRole ≠ "CUSTOMER") :
    (onMessage (WsFrame.chatFrame c) s).isTyping = s.isTyping ∧
    (onMessage (WsFrame.chatFrame c) s).hasPendingBotResponse = false := by
  simp [onMessage, hty, hrole]

/-- C3 witness: the amended statement instantiated at a concrete frame
and state. -/
theorem C3_witness :
    (onMessage (WsFrame.chatFrame { msgType := "MESSAGE", participantRole := "AGENT", msgContent := "hi", absoluteTime := 5 })
        initialState).isTyping = initialState.isTyping ∧
    (onMessage (WsFrame.chatFrame { msgType := "MESSAGE", participantRole := "AGENT", msgContent := "hi", absoluteTime := 5 })
        initialState).hasPendingBotResponse = false :=
  C3_delivery_keeps_typing
    { msgType := "MESSAGE", participantRole := "AGENT", msgContent := "hi", absoluteTime := 5 }
    initialState rfl (by decide)

/-- C4: handling a chat MESSAGE frame from a non-local participant first
maps the pending-flag clear over the whole log and then appends the remote
message after it; every local entry of the mapped log has its pending flag
false; the clearing map never raises a pending flag (so a flag can flip at
most once, monotonically); and the map is idempotent. -/
theorem C4_remote_ack (c : ChatInner) (s : ClientState)
    (hty : c.msgType = "MESSAGE") (hrole : c.participantRole ≠ "CUSTOMER") :
    (onMessage (WsFrame.chatFrame c) s).messages =
      s.messages.map clearPendingUser ++
        [{ content := c.msgContent, sender := Sender.bot, timestamp := c.absoluteTime,
           isLoading := false }] ∧
    (∀ m ∈ s.messages.map clearPendingUser, m.sender = Sender.user → m.isLoading = false) ∧
    (∀ m : Message, (clearPendingUser m).isLoading = true → m.isLoading = true) ∧
    (∀ m : Message, clearPendingUser (clearPendingUser m) = clearPendingUser m) := by
  refine ⟨by simp [onMessage, hty, hrole], ?_, ?_, ?_⟩
  · intro m hm hu
    rcases List.mem_map.mp hm with ⟨m0, _, rfl⟩
    rcases m0 with ⟨c0, sdr, ts, ld⟩
    cases sdr <;> cases ld <;> simp_all [clearPendingUser]
  · intro m
    rcases m with ⟨c0, sdr, ts, ld⟩
    cases sdr <;> cases ld <;> simp [clearPendingUser]
  · intro m
    rcases m with ⟨c0, sdr, ts, ld⟩
    cases sdr <;> cases ld <;> simp [clearPendingUser]

/-- C4 witness: a log holding one pending local message, receiving a
remote MESSAGE frame: the pending flag is flipped and the remote message
appended after it. -/
theorem C4_witness :
    (onMessage
        (WsFrame.chatFrame { msgType := "MESSAGE", participantRole := "AGENT", msgContent := "hi", absoluteTime := 5 })
        { initialState with
            messages := [{ content := "hello", sender := Sender.user, timestamp := 1, isLoading := true }] }).messages =
      [{ content := "hello", sender := Sender.user, timestamp := 1, isLoading := false },
       { content := "hi", sender := Sender.bot, timestamp := 5, isLoading := false }] := by
  have h := C4_remote_ack
    { msgType := "MESSAGE", participantRole := "AGENT", msgContent := "hi", absoluteTime := 5 }
    { initialState with
        messages := [{ content := "hello", sender := Sender.user, timestamp := 1, isLoading := true }] }
    rfl (by decide)
  rw [h.1]
  decide

/-- C5: after a typing-topic frame of inner type TYPING, the typing signal
is true exactly when the state is STARTED and the participant role is not
the local CUSTOMER role; in particular STOPPED from a remote role clears
it and STARTED from the local role clears it regardless of prior state. -/
theorem C5_typing_signal (t : TypingInner) (s : ClientState)
    (h : t.msgType = "TYPING") :
    ((onMessage (WsFrame.typingFrame t) s).isTyping = true ↔
      (t.state = "STARTED" ∧ t.participantRole ≠ "CUSTOMER")) := by
  simp [onMessage, h]

/-- C5 witness: a STOPPED frame from the remote AGENT role clears a set
typing signal. -/
theorem C5_witness :
    (onMessage (WsFrame.typingFrame { msgType := "TYPING", state := "STOPPED", participantRole := "AGENT" })
        { initialState with isTyping := true }).isTyping = false := by
  have h := C5_typing_signal
    { msgType := "TYPING", state := "STOPPED", participantRole := "AGENT" }
    { initialState with isTyping := true } rfl
  cases hb : (onMessage (WsFrame.typingFrame { msgType := "TYPING", state := "STOPPED", participantRole := "AGENT" })
      { initialState with isTyping := true }).isTyping
  · rfl
  · exact absurd (h.mp hb) (by decide)

/-- C6: when the bootstrap response body lacks (or has falsy) contactId,
participantToken or websocketUrl, the thrown error lands in the catch
block: no Session field is written, no channel is constructed, the
conversation log is untouched and the loading flag ends false. -/
theorem C6_bootstrap_missing (resp : BootstrapResponse) (s : ClientState)
    (h : (jsFalsy resp.contactId || jsFalsy resp.participantToken
        || jsFalsy resp.websocketUrl) = true) :
    (initChat (some resp) s).messages = s.messages ∧
    (initChat (some resp) s).contactId = s.contactId ∧
    (initChat (some resp) s).participantToken = s.participantToken ∧
    (initChat (some resp) s).connectionToken = s.connectionToken ∧
    (initChat (some resp) s).wsUrl = s.wsUrl ∧
    (initChat (some resp) s).wsRef = s.wsRef ∧
    (initChat (some resp) s).channelsCreated = s.channelsCreated ∧
    (initChat (some resp) s).isChatLoading = false := by
  simp [initChat, h]

/-- A bootstrap response body lacking the push-channel address, used as
concrete input in witnesses. -/
def respNoUrl : BootstrapResponse :=
  { contactId := some "c1"
    participantToken := some "p1"
    websocketUrl := none
    connectionToken := some "k1" }

/-- C6 witness: a response missing the push-channel address, applied to
the initial state: the log stays empty, all session cells stay absent and
no channel exists. -/
theorem C6_witness :
    (initChat (some respNoUrl) initialState).messages = [] ∧
    (initChat (some respNoUrl) initialState).contactId = none ∧
    (initChat (some respNoUrl) initialState).wsRef = none := by
  have h := C6_bootstrap_missing respNoUrl initialState (by decide)
  exact ⟨h.1, h.2.1, h.2.2.2.2.2.1⟩

/-- Whether the outward send call failed as seen by the client: a
non-2xx HTTP response or a rejected fetch. -/
def sendFailed : SendOutcome → Bool
  | SendOutcome.resolved status => decide (status < 200 ∨ 300 ≤ status)
  | SendOutcome.transportFailure => true

/-- An active post-bootstrap client state with a typed draft message,
used as concrete input in witnesses. -/
def sActive : ClientState :=
  { initialState with
      input := "hello"
      contactId := some "c1"
      participantToken := some "p1"
      connectionToken := some "k1"
      wsUrl := some "wss://x"
      wsRef := some 0
      bootstrapCalls := 1
      channelsCreated := 1 }

/-- C7: clear() rewrites the state to the same state with an empty log —
every Session field, the channel reference and both effect counters are
exactly as before — and a send() issued afterwards (with a fresh draft)
still appends its optimistic message without any new bootstrap fetch or
channel construction. -/
theorem C7_clear_frame (s : ClientState) (now : Nat) (o : SendOutcome) (txt : String)
    (hin : jsFalsy (some (jsTrim txt)) = false)
    (hc : jsFalsy s.contactId = false) (hp : jsFalsy s.participantToken = false)
    (hw : jsFalsy s.wsUrl = false) :
    handleClearMessages s = { s with messages := [] } ∧
    (handleSubmit now o { handleClearMessages s with input := txt }).messages =
      [{ content := txt, sender := Sender.user, timestamp := now, isLoading := true }] ∧
    (handleSubmit now o { handleClearMessages s with input := txt }).contactId = s.contactId ∧
    (handleSubmit now o { handleClearMessages s with input := txt }).participantToken = s.participantToken ∧
    (handleSubmit now o { handleClearMessages s with input := txt }).connectionToken = s.connectionToken ∧
    (handleSubmit now o { handleClearMessages s with input := txt }).wsUrl = s.wsUrl ∧
    (handleSubmit now o { handleClearMessages s with input := txt }).wsRef = s.wsRef ∧
    (handleSubmit now o { handleClearMessages s with input := txt }).bootstrapCalls = s.bootstrapCalls ∧
    (handleSubmit now o { handleClearMessages s with input := txt }).channelsCreated = s.channelsCreated := by
  refine ⟨rfl, ?_⟩
  simp [handleSubmit, handleClearMessages, hin, hc, hp, hw]

/-- C7 witness: clearing the active state and sending a new draft: the
log holds exactly the optimistic message and the session is untouched. -/
theorem C7_witness :
    handleClearMessages sActive = { sActive with messages := [] } ∧
    (handleSubmit 7 (SendOutcome.resolved 200) { handleClearMessages sActive with input := "again" }).messages =
      [{ content := "again", sender := Sender.user, timestamp := 7, isLoading := true }] ∧
    (handleSubmit 7 (SendOutcome.resolved 200) { handleClearMessages sActive with input := "again" }).contactId = sActive.contactId ∧
    (handleSubmit 7 (SendOutcome.resolved 200) { handleClearMessages sActive with input := "again" }).participantToken = sActive.participantToken ∧
    (handleSubmit 7 (SendOutcome.resolved 200) { handleClearMessages sActive with input := "again" }).connectionToken = sActive.connectionToken ∧
    (handleSubmit 7 (SendOutcome.resolved 200) { handleClearMessages sActive with input := "again" }).wsUrl = sActive.wsUrl ∧
    (handleSubmit 7 (SendOutcome.resolved 200) { handleClearMessages sActive with input := "again" }).wsRef = sActive.wsRef ∧
    (handleSubmit 7 (SendOutcome.resolved 200) { handleClearMessages sActive with input := "again" }).bootstrapCalls = sActive.bootstrapCalls ∧
    (handleSubmit 7 (SendOutcome.resolved 200) { handleClearMessages sActive with input := "again" }).channelsCreated = sActive.channelsCreated :=
  C7_clear_frame sActive 7 (SendOutcome.resolved 200) "again"
    (by decide) (by decide) (by decide) (by decide)

/-- C8: when the outward send call fails, the client state still holds
the optimistic message, appended with its pending flag set, and every
Session field, the channel reference and both effect counters are
unchanged — the failure is not session-fatal. -/
theorem C8_send_failure (s : ClientState) (now : Nat) (o : SendOutcome)
    (hfail : sendFailed o = true)
    (hin : jsFalsy (some (jsTrim s.input)) = false)
    (hc : jsFalsy s.contactId = false) (hp : jsFalsy s.participantToken = false)
    (hw : jsFalsy s.wsUrl = false) :
    (handleSubmit now o s).messages =
      s.messages ++
        [{ content := s.input, sender := Sender.user, timestamp := now, isLoading := true }] ∧
    (handleSubmit now o s).contactId = s.contactId ∧
    (handleSubmit now o s).participantToken = s.participantToken ∧
    (handleSubmit now o s).connectionToken = s.connectionToken ∧
    (handleSubmit now o s).wsUrl = s.wsUrl ∧
    (handleSubmit now o s).wsRef = s.wsRef ∧
    (handleSubmit now o s).bootstrapCalls = s.bootstrapCalls ∧
    (handleSubmit now o s).channelsCreated = s.channelsCreated := by
  simp [handleSubmit, hin, hc, hp, hw]

/-- C8 witness: a transport failure of the send fetch from the active
state keeps the optimistic pending message and the whole session. -/
theorem C8_witness :
    (handleSubmit 9 SendOutcome.transportFailure sActive).messages =
      sActive.messages ++
        [{ content := sActive.input, sender := Sender.user, timestamp := 9, isLoading := true }] ∧
    (handleSubmit 9 SendOutcome.transportFailure sActive).contactId = sActive.contactId ∧
    (handleSubmit 9 SendOutcome.transportFailure sActive).participantToken = sActive.participantToken ∧
    (handleSubmit 9 SendOutcome.transportFailure sActive).connectionToken = sActive.connectionToken ∧
    (handleSubmit 9 SendOutcome.transportFailure sActive).wsUrl = sActive.wsUrl ∧
    (handleSubmit 9 SendOutcome.transportFailure sActive).wsRef = sActive.wsRef ∧
    (handleSubmit 9 SendOutcome.transportFailure sActive).bootstrapCalls = sActive.bootstrapCalls ∧
    (handleSubmit 9 SendOutcome.transportFailure sActive).channelsCreated = sActive.channelsCreated :=
  C8_send_failure sActive 9 SendOutcome.transportFailure rfl
    (by decide) (by decide) (by decide) (by decide)

/-- C9: a chat frame whose participant role is the local CUSTOMER role
leaves the state untouched — nothing is appended and no pending flag is
flipped — whatever the inner type. -/
theorem C9_local_echo_discarded (c : ChatInner) (s : ClientState)
    (hrole : c.participantRole = "CUSTOMER") :
    onMessage (WsFrame.chatFrame c) s = s := by
  by_cases hty : c.msgType = "MESSAGE"
  · simp [onMessage, hty, hrole]
  · simp [onMessage, hty]

/-- C9 witness: a CUSTOMER-role MESSAGE frame arriving at a state holding
a pending local message changes nothing. -/
theorem C9_witness :
    onMessage
        (WsFrame.chatFrame { msgType := "MESSAGE", participantRole := "CUSTOMER", msgContent := "hello", absoluteTime := 3 })
        sActive = sActive :=
  C9_local_echo_discarded
    { msgType := "MESSAGE", participantRole := "CUSTOMER", msgContent := "hello", absoluteTime := 3 }
    sActive rfl

/-- A bootstrapped state whose connectionToken is absent (the bootstrap
response may omit it), with a typed draft, used as concrete input. -/
def sNoTok : ClientState :=
  { initialState with
      input := "hello"
      contactId := some "c1"
      participantToken := some "p1"
      connectionToken := none
      wsUrl := some "wss://x"
      wsRef := some 0
      bootstrapCalls := 1
      channelsCreated := 1 }

/-- C10: any send request lacking connectionToken or content is answered
400 with error kind MissingParameters and the outward transport is never
invoked; the client precondition for sending does not include
connectionToken, so from a bootstrapped state without one the optimistic
message is still appended and the request the client posts is exactly
such a rejected request. -/
theorem C10_missing_params (tr : TransportResult) (s : ClientState) (now : Nat)
    (o : SendOutcome)
    (hct : s.connectionToken = none)
    (hin : jsFalsy (some (jsTrim s.input)) = false)
    (hc : jsFalsy s.contactId = false) (hp : jsFalsy s.participantToken = false)
    (hw : jsFalsy s.wsUrl = false) :
    (∀ req : SendRequest, req.connectionToken = none ∨ req.content = none →
      sendMessageEndpoint tr req =
        { status := 400, errorKind := some "MissingParameters", outwardCalled := false }) ∧
    sendMessageEndpoint tr (clientSendRequest s) =
      { status := 400, errorKind := some "MissingParameters", outwardCalled := false } ∧
    (handleSubmit now o s).messages =
      s.messages ++
        [{ content := s.input, sender := Sender.user, timestamp := now, isLoading := true }] := by
  refine ⟨?_, ?_, ?_⟩
  · intro req h
    rcases h with h | h <;> simp [sendMessageEndpoint, jsFalsy, h]
  · simp [sendMessageEndpoint, clientSendRequest, hct, jsFalsy]
  · simp [handleSubmit, hin, hc, hp, hw]

/-- C10 witness: from the tokenless bootstrapped state, the posted
request is rejected 400 MissingParameters without reaching the transport,
and the optimistic message was still appended. -/
theorem C10_witness :
    sendMessageEndpoint TransportResult.err (clientSendRequest sNoTok) =
      { status := 400, errorKind := some "MissingParameters", outwardCalled := false } ∧
    (handleSubmit 4 (SendOutcome.resolved 400) sNoTok).messages =
      sNoTok.messages ++
        [{ content := sNoTok.input, sender := Sender.user, timestamp := 4, isLoading := true }] := by
  have h := C10_missing_params TransportResult.err sNoTok 4 (SendOutcome.resolved 400)
    rfl (by decide) (by decide) (by decide) (by decide)
  exact ⟨h.2.1, h.2.2⟩

end Chat
